import Mathlib

/-!
Shallow embedding of the core of the authorsvoice repository: the
speech-transcript accumulator (hook useSpeechRecognition) and the
document/manuscript store (storageService.ts), together with theorems
settling the claims of the specification about them.

Conventions of the embedding:
* Calls to Date.now() are passed in explicitly as a `now : Nat` parameter;
  wall-clock monotonicity, where a claim needs it, is an explicit hypothesis.
* The browser localStorage triple of keys becomes a `Store` record holding the
  three collections; each service function is a pure function on it.
* React state setters become field updates on a `SpeechState` record; each
  event handler is one state-transition function, applied atomically.
-/

namespace AuthorsVoice

/-! ## Transcript accumulator (useSpeechRecognition)

State of the hook: the useState cells `isListening`, `error`,
`confirmedText`, `interimText`, plus `hasSession` modelling whether
`recognitionRef.current` is non-null (the ref is set by `startListening` and
never nulled afterwards). -/

structure SpeechState where
  isListening : Bool
  error : Option String
  confirmedText : String
  interimText : String
  hasSession : Bool
  deriving Repr, DecidableEq

/-- Initial hook state: `useState(false)`, `useState(null)`, `useState('')`,
`useState('')`, `useRef(null)`. -/
def initialState : SpeechState :=
  { isListening := false, error := none, confirmedText := "", interimText := "",
    hasSession := false }

/-- Derived value `fullTranscript = confirmedText + interimText`. -/
def fullTranscript (s : SpeechState) : String :=
  s.confirmedText ++ s.interimText

/-- One slot of the result window, as the handler reads it:
`event.results[i][0].transcript` and `event.results[i].isFinal`. -/
structure ResultSlot where
  transcript : String
  isFinal : Bool
  deriving Repr, DecidableEq

/-- Accumulator `newFinal` of the onresult loop: over the window, every final
slot contributes its transcript followed by a single space. -/
def finalsText (slots : List ResultSlot) : String :=
  slots.foldl (fun acc r => if r.isFinal then acc ++ r.transcript ++ " " else acc) ""

/-- Accumulator `newInterim` of the onresult loop: over the window, every
non-final slot contributes its transcript, with no separator. -/
def interimsText (slots : List ResultSlot) : String :=
  slots.foldl (fun acc r => if r.isFinal then acc else acc ++ r.transcript) ""

/-- Handler `recognition.onresult`: the window of slots of the event (from
`event.resultIndex` to the end) is split into `newFinal` and `newInterim`;
then `if (newFinal) setConfirmedText(prev => prev + newFinal)`, and
`setInterimText(newInterim)` runs unconditionally. -/
def onResult (s : SpeechState) (slots : List ResultSlot) : SpeechState :=
  let newFinal := finalsText slots
  let newInterim := interimsText slots
  { s with
    confirmedText := if newFinal = "" then s.confirmedText else s.confirmedText ++ newFinal,
    interimText := newInterim }

/-- A whole sequence of onresult events, applied in arrival order. -/
def processEvents (s : SpeechState) (evs : List (List ResultSlot)) : SpeechState :=
  evs.foldl onResult s

/-- Message set by onerror for the not-allowed / service-not-allowed codes. -/
def permissionDeniedMessage : String :=
  "Microphone access denied or speech service unavailable."

/-- Handler `recognition.onerror`: `setIsListening(false)` runs first,
unconditionally; then the codes not-allowed and service-not-allowed set the
permission message, any other code except no-speech sets the generic message
carrying the code, and no-speech sets no error. -/
def onError (s : SpeechState) (errorType : String) : SpeechState :=
  let s1 := { s with isListening := false }
  if errorType = "not-allowed" ∨ errorType = "service-not-allowed" then
    { s1 with error := some permissionDeniedMessage }
  else if errorType ≠ "no-speech" then
    { s1 with error := some ("Error occurred: " ++ errorType) }
  else
    s1

/-- Handler `recognition.onstart`: `setIsListening(true)`. -/
def onStart (s : SpeechState) : SpeechState :=
  { s with isListening := true }

/-- Handler `recognition.onend`: `setIsListening(false)`. -/
def onEnd (s : SpeechState) : SpeechState :=
  { s with isListening := false }

/-- Message set by `startListening` when no recognition constructor exists. -/
def unsupportedMessage : String :=
  "Speech recognition is not supported in this browser."

/-- Synchronous effect of `startListening` on the hook state: `setError(null)`
first; if the browser lacks a recognition constructor (`available = false`),
set the unsupported message and return; otherwise abort any existing instance,
build a fresh one and store it in the ref (`hasSession := true`). The flag
`isListening` is only changed later by the onstart callback, and the text
buffers are not touched at all. -/
def startListening (available : Bool) (s : SpeechState) : SpeechState :=
  let s1 := { s with error := none }
  if available then
    { s1 with hasSession := true }
  else
    { s1 with error := some unsupportedMessage }

/-- Function `stopListening`: guarded by `recognitionRef.current`; commits the
pending interim text into `confirmedText` and clears `interimText`. The flag
`isListening` is cleared later by the onend callback of the backend, not
here. -/
def stopListening (s : SpeechState) : SpeechState :=
  if s.hasSession then
    { s with confirmedText := s.confirmedText ++ s.interimText, interimText := "" }
  else
    s

/-- Function `resetTranscript`: clears both text buffers, aborts any active
instance, and `setIsListening(false)`. The source does not touch `error`
here. -/
def resetTranscript (s : SpeechState) : SpeechState :=
  { s with confirmedText := "", interimText := "", isListening := false }

/-- Function `setTranscript(text)`: replaces `confirmedText` with `text` and
clears `interimText`. -/
def setTranscript (s : SpeechState) (text : String) : SpeechState :=
  { s with confirmedText := text, interimText := "" }

/-! ## Document store (storageService.ts)

The three localStorage keys become the three fields of `Store`;
`userSettings = none` models an absent USER_SETTINGS_KEY entry. -/

structure Manuscript where
  id : String
  title : String
  createdAt : Nat
  updatedAt : Nat
  deriving Repr, DecidableEq

structure Document where
  id : String
  manuscriptId : Option String
  title : String
  rawText : String
  polishedText : String
  tags : List String
  createdAt : Nat
  updatedAt : Nat
  deriving Repr, DecidableEq

structure UserSettings where
  userName : String
  hasCompletedOnboarding : Bool
  deriving Repr, DecidableEq

structure Store where
  manuscripts : List Manuscript
  documents : List Document
  userSettings : Option UserSettings
  deriving Repr, DecidableEq

/-- A store with all three localStorage keys absent. -/
def emptyStore : Store :=
  { manuscripts := [], documents := [], userSettings := none }

/-- JavaScript `Array.prototype.findIndex`: index of the first match, with
`none` modelling the -1 of a failed search. -/
def findIndex {α : Type} (p : α → Bool) : List α → Option Nat
  | [] => none
  | a :: l => if p a then some 0 else (findIndex p l).map (· + 1)

/-- Function `saveDocument(doc)`: upsert by id. `updatedAt` is refreshed to
`now` on every call; on a fresh insert `createdAt` is also set to `now` and
the record is pushed at the end; on an update the record at the found index is
replaced wholesale by the caller-supplied fields (including the
caller-supplied `createdAt`). Returns the stored record with the new store. -/
def saveDocument (now : Nat) (doc : Document) (st : Store) : Document × Store :=
  let docs := st.documents
  let updatedDoc := { doc with updatedAt := now }
  match findIndex (fun d => d.id == doc.id) docs with
  | some i => (updatedDoc, { st with documents := docs.set i updatedDoc })
  | none =>
    let newDoc := { updatedDoc with createdAt := now }
    (newDoc, { st with documents := docs ++ [newDoc] })

/-- Function `getDocument(id)`: first record whose id matches. -/
def getDocument (id : String) (st : Store) : Option Document :=
  st.documents.find? (fun d => d.id == id)

/-- Function `getDocumentsByManuscript(manuscriptId)`: filter by strict
equality of the optional back-reference (undefined matches only undefined). -/
def getDocumentsByManuscript (manuscriptId : Option String) (st : Store) : List Document :=
  st.documents.filter (fun d => d.manuscriptId == manuscriptId)

/-- Function `deleteManuscript(id)`: drop the matching manuscript, then drop
every document whose `manuscriptId` strictly equals id (an absent
`manuscriptId` never equals a string, so standalone notes survive). -/
def deleteManuscript (id : String) (st : Store) : Store :=
  { st with
    manuscripts := st.manuscripts.filter (fun m => m.id != id),
    documents := st.documents.filter (fun d => d.manuscriptId != some id) }

/-- Function `deleteDocument(id)`: drop every document whose id matches. -/
def deleteDocument (id : String) (st : Store) : Store :=
  { st with documents := st.documents.filter (fun d => d.id != id) }

/-- Stable insertion of a document into a createdAt-sorted list; an element
with an equal key stays after the earlier-listed one, matching the stable
`Array.prototype.sort` with comparator `a.createdAt - b.createdAt`. -/
def insertByCreatedAt (d : Document) : List Document → List Document
  | [] => [d]
  | e :: l =>
    if d.createdAt ≤ e.createdAt then d :: e :: l else e :: insertByCreatedAt d l

/-- Stable sort by ascending createdAt:
`.sort((a, b) => a.createdAt - b.createdAt)`. -/
def sortByCreatedAt : List Document → List Document
  | [] => []
  | d :: l => insertByCreatedAt d (sortByCreatedAt l)

/-- Block of one chapter in the compiled manuscript: a `--- title ---` header,
a blank line, then `polishedText || rawText || ""`, then a blank line. -/
def chapterBlock (chapter : Document) : String :=
  let content := if chapter.polishedText ≠ "" then chapter.polishedText else chapter.rawText
  "--- " ++ chapter.title ++ " ---\n\n" ++ content ++ "\n\n"

/-- Function `compileManuscript(manuscriptId)`: empty string when the
manuscript is missing; otherwise the chapters of that manuscript sorted by
ascending createdAt, each rendered as a titled block, joined with no
separator. -/
def compileManuscript (manuscriptId : String) (st : Store) : String :=
  match st.manuscripts.find? (fun m => m.id == manuscriptId) with
  | none => ""
  | some _ =>
    let chapters := sortByCreatedAt (getDocumentsByManuscript (some manuscriptId) st)
    String.join (chapters.map chapterBlock)

/-! ## Backup and restore

Function `restoreBackup` receives the result of JSON.parse on the input blob.
That parse result is modelled structurally: `none` is a parse failure (the
catch branch); in a parsed object, a field of type `Option (List _)` is `some`
exactly when the field is present and `Array.isArray` holds for it, and
`userSettings` is `some` exactly when the field is present and truthy. -/

structure BackupData where
  manuscripts : Option (List Manuscript)
  documents : Option (List Document)
  userSettings : Option UserSettings
  version : Option Nat
  timestamp : Option Nat
  deriving Repr, DecidableEq

/-- Function `createBackup()`: snapshot of the whole store plus `version: 1`
and a generation timestamp, given directly as the structural view that
`restoreBackup` will parse. -/
def createBackup (now : Nat) (st : Store) : BackupData :=
  { manuscripts := some st.manuscripts,
    documents := some st.documents,
    userSettings := st.userSettings,
    version := some 1,
    timestamp := some now }

/-- Function `restoreBackup(jsonData)`: on a parse failure, or when
`manuscripts` or `documents` is not an array, return false and leave the store
untouched; otherwise overwrite the manuscripts and documents entries,
overwrite the settings entry only when `userSettings` is truthy, and return
true. -/
def restoreBackup (input : Option BackupData) (st : Store) : Bool × Store :=
  match input with
  | none => (false, st)
  | some data =>
    match data.manuscripts, data.documents with
    | some ms, some ds =>
      let st1 := { st with manuscripts := ms, documents := ds }
      let st2 :=
        match data.userSettings with
        | some u => { st1 with userSettings := some u }
        | none => st1
      (true, st2)
    | _, _ => (false, st)

/-! ## Concrete fixtures used by counterexamples and witnesses -/

/-- Total finalized text of a sequence of events: the per-event `newFinal`
strings, concatenated in arrival order. -/
def allFinalsText : List (List ResultSlot) → String
  | [] => ""
  | e :: evs => finalsText e ++ allFinalsText evs

/-- A state in the middle of a capture session. -/
def listeningState : SpeechState :=
  { isListening := true, error := none, confirmedText := "hello ", interimText := "",
    hasSession := true }

/-- A session state with pending interim text, ready to be stopped. -/
def stoppableState : SpeechState :=
  { isListening := true, error := none, confirmedText := "hello ", interimText := "world",
    hasSession := true }

/-- A state carrying a surfaced error. -/
def erroredState : SpeechState :=
  { isListening := true, error := some "boom", confirmedText := "c", interimText := "i",
    hasSession := true }

/-- A standalone note (no manuscriptId). -/
def noteDoc : Document :=
  { id := "d-note", manuscriptId := none, title := "note", rawText := "n", polishedText := "",
    tags := [], createdAt := 1, updatedAt := 1 }

/-- A chapter of manuscript m1. -/
def chapDoc : Document :=
  { id := "d-chap", manuscriptId := some "m1", title := "ch", rawText := "c", polishedText := "",
    tags := [], createdAt := 2, updatedAt := 2 }

/-- The manuscript m1. -/
def demoManuscript : Manuscript :=
  { id := "m1", title := "M", createdAt := 0, updatedAt := 0 }

/-- A store holding manuscript m1, one of its chapters, and one standalone
note. -/
def demoStore : Store :=
  { manuscripts := [demoManuscript], documents := [noteDoc, chapDoc], userSettings := none }

/-- Chapter titled A with createdAt 300 (from the example of the spec). -/
def exChapterA : Document :=
  { id := "ch-a", manuscriptId := some "m1", title := "A", rawText := "rawA",
    polishedText := "polA", tags := [], createdAt := 300, updatedAt := 300 }

/-- Chapter titled B with createdAt 100 and no polished text. -/
def exChapterB : Document :=
  { id := "ch-b", manuscriptId := some "m1", title := "B", rawText := "rawB",
    polishedText := "", tags := [], createdAt := 100, updatedAt := 100 }

/-- Chapter titled C with createdAt 200. -/
def exChapterC : Document :=
  { id := "ch-c", manuscriptId := some "m1", title := "C", rawText := "rawC",
    polishedText := "polC", tags := [], createdAt := 200, updatedAt := 200 }

/-- Store for the compile-order example: chapters stored in order A, B, C with
createdAt 300, 100, 200. -/
def exampleStore : Store :=
  { manuscripts := [demoManuscript],
    documents := [exChapterA, exChapterB, exChapterC], userSettings := none }

/-- Document as first saved by the App caller at time 10. -/
def firstSaveDoc : Document :=
  { id := "doc-1", manuscriptId := none, title := "T", rawText := "r", polishedText := "",
    tags := [], createdAt := 10, updatedAt := 10 }

/-- A parsed backup blob whose documents field is missing. -/
def missingDocsBackup : BackupData :=
  { manuscripts := some [], documents := none, userSettings := none,
    version := some 1, timestamp := some 0 }

/-! ## Helper lemmas -/

theorem onResult_confirmed (s : SpeechState) (slots : List ResultSlot) :
    (onResult s slots).confirmedText = s.confirmedText ++ finalsText slots := by
  simp only [onResult]
  split
  · next h => rw [h, String.append_empty]
  · rfl

theorem onResult_interim (s : SpeechState) (slots : List ResultSlot) :
    (onResult s slots).interimText = interimsText slots := by
  simp only [onResult]

theorem processEvents_confirmed (evs : List (List ResultSlot)) (s : SpeechState) :
    (processEvents s evs).confirmedText = s.confirmedText ++ allFinalsText evs := by
  induction evs generalizing s with
  | nil => rw [allFinalsText, String.append_empty]; rfl
  | cons e evs ih =>
    show (processEvents (onResult s e) evs).confirmedText = _
    rw [ih, onResult_confirmed, allFinalsText, String.append_assoc]

theorem processEvents_interim_last (s : SpeechState) (evs : List (List ResultSlot))
    (e : List ResultSlot) :
    (processEvents s (evs ++ [e])).interimText = interimsText e := by
  rw [processEvents, List.foldl_append]
  exact onResult_interim _ e

theorem mem_insertByCreatedAt (d x : Document) (l : List Document) :
    x ∈ insertByCreatedAt d l ↔ x = d ∨ x ∈ l := by
  induction l with
  | nil => simp [insertByCreatedAt]
  | cons e l ih =>
    rw [insertByCreatedAt]
    split
    · simp [List.mem_cons]
    · simp [List.mem_cons, ih]
      tauto

theorem insertByCreatedAt_perm (d : Document) (l : List Document) :
    List.Perm (insertByCreatedAt d l) (d :: l) := by
  induction l with
  | nil => exact List.Perm.refl _
  | cons e l ih =>
    rw [insertByCreatedAt]
    split
    · exact List.Perm.refl _
    · exact (ih.cons e).trans (List.Perm.swap d e l)

theorem sortByCreatedAt_perm (l : List Document) :
    List.Perm (sortByCreatedAt l) l := by
  induction l with
  | nil => exact List.Perm.refl _
  | cons d l ih =>
    rw [sortByCreatedAt]
    exact (insertByCreatedAt_perm d _).trans (ih.cons d)

theorem sorted_insertByCreatedAt (d : Document) (l : List Document)
    (h : List.Pairwise (fun a b => a.createdAt ≤ b.createdAt) l) :
    List.Pairwise (fun a b => a.createdAt ≤ b.createdAt) (insertByCreatedAt d l) := by
  induction l with
  | nil => simp [insertByCreatedAt]
  | cons e l ih =>
    rcases List.pairwise_cons.mp h with ⟨he, hl⟩
    rw [insertByCreatedAt]
    split
    · next hde =>
      refine List.pairwise_cons.mpr ⟨?_, h⟩
      intro x hx
      rcases List.mem_cons.mp hx with rfl | hxl
      · exact hde
      · exact Nat.le_trans hde (he x hxl)
    · next hde =>
      refine List.pairwise_cons.mpr ⟨?_, ih hl⟩
      intro x hx
      rcases (mem_insertByCreatedAt d x l).mp hx with rfl | hxl
      · exact le_of_not_le hde
      · exact he x hxl

theorem sortByCreatedAt_sorted (l : List Document) :
    List.Pairwise (fun a b => a.createdAt ≤ b.createdAt) (sortByCreatedAt l) := by
  induction l with
  | nil => simp [sortByCreatedAt]
  | cons d l ih =>
    rw [sortByCreatedAt]
    exact sorted_insertByCreatedAt d _ ih

/-! ## Claim theorems -/

/-- C1, counterexample: the claim says the LAST interim slot of an event
replaces `interimText` wholesale, but on an event carrying two interim slots
"a" and "b" the handler stores the concatenation "ab", not the last slot
"b". -/
theorem C1_counterexample :
    (onResult initialState [⟨"a", false⟩, ⟨"b", false⟩]).interimText = "ab" ∧
    ("ab" : String) ≠ "b" :=
  ⟨rfl, by decide⟩

/-- C1 (amended): on every onResult event the accumulator appends the
concatenation of all final slots (each with a single trailing space) to
`confirmedText`, and the concatenation of ALL interim slots of the event (not
just the last) replaces `interimText` wholesale; consequently, after any
sequence of events the confirmed text is the initial confirmed text followed
by all final segments in order (so a finalized segment never disappears or
duplicates, the confirmed text only ever growing by appending), the interim
text is the interim concatenation of the last event, and the visible
transcript is the concatenation of both. -/
theorem C1_transcript_accumulation (s : SpeechState) (slots : List ResultSlot)
    (evs : List (List ResultSlot)) (e : List ResultSlot) :
    (onResult s slots).confirmedText = s.confirmedText ++ finalsText slots ∧
    (onResult s slots).interimText = interimsText slots ∧
    (processEvents s evs).confirmedText = s.confirmedText ++ allFinalsText evs ∧
    (processEvents s (evs ++ [e])).interimText = interimsText e ∧
    fullTranscript (processEvents s (evs ++ [e])) =
      (s.confirmedText ++ allFinalsText (evs ++ [e])) ++ interimsText e ∧
    (∃ t, (processEvents s evs).confirmedText = s.confirmedText ++ t) := by
  refine ⟨onResult_confirmed s slots, onResult_interim s slots,
    processEvents_confirmed evs s, processEvents_interim_last s evs e, ?_,
    ⟨allFinalsText evs, processEvents_confirmed evs s⟩⟩
  rw [fullTranscript, processEvents_confirmed, processEvents_interim_last]

/-- C2, code bug: the App caller passes `createdAt: Date.now()` on every save
with the comment that the update case is handled in the service, but
`saveDocument` overwrites `createdAt` with the caller-supplied value on
update. Inserting doc-1 at time 10 stores createdAt 10; re-saving it at time
20 the way the App does stores createdAt 20, so the creation time is not
preserved from the first insert. -/
theorem C2_code_bug :
    (getDocument "doc-1" (saveDocument 10 firstSaveDoc emptyStore).2).map Document.createdAt
      = some 10 ∧
    (getDocument "doc-1"
        (saveDocument 20 { firstSaveDoc with createdAt := 20 }
          (saveDocument 10 firstSaveDoc emptyStore).2).2).map Document.createdAt
      = some 20 ∧
    (20 : Nat) ≠ 10 :=
  ⟨rfl, rfl, by decide⟩

/-- C3: deleteManuscript removes exactly the manuscript with the given id and
exactly the documents whose manuscriptId equals that id; all other documents
and manuscripts survive in their original relative order, and the user
settings are untouched. -/
theorem C3_deleteManuscript (id : String) (st : Store) :
    (∀ m : Manuscript,
      m ∈ (deleteManuscript id st).manuscripts ↔ m ∈ st.manuscripts ∧ m.id ≠ id) ∧
    (∀ d : Document,
      d ∈ (deleteManuscript id st).documents ↔
        d ∈ st.documents ∧ d.manuscriptId ≠ some id) ∧
    List.Sublist (deleteManuscript id st).documents st.documents ∧
    List.Sublist (deleteManuscript id st).manuscripts st.manuscripts ∧
    (deleteManuscript id st).userSettings = st.userSettings := by
  refine ⟨?_, ?_, ?_, ?_, rfl⟩
  · intro m
    simp [deleteManuscript, List.mem_filter]
  · intro d
    simp [deleteManuscript, List.mem_filter]
  · exact List.filter_sublist _
  · exact List.filter_sublist _

/-- C3 witness: in the demo store, deleting manuscript m1 keeps the standalone
note, removes the chapter of m1, and removes the manuscript itself. -/
theorem C3_witness :
    noteDoc ∈ (deleteManuscript "m1" demoStore).documents ∧
    chapDoc ∉ (deleteManuscript "m1" demoStore).documents ∧
    demoManuscript ∉ (deleteManuscript "m1" demoStore).manuscripts := by
  refine ⟨?_, ?_, ?_⟩
  · exact ((C3_deleteManuscript "m1" demoStore).2.1 noteDoc).mpr ⟨by decide, by decide⟩
  · intro h
    exact (((C3_deleteManuscript "m1" demoStore).2.1 chapDoc).mp h).2 rfl
  · intro h
    exact (((C3_deleteManuscript "m1" demoStore).1 demoManuscript).mp h).2 rfl

/-- C5: compileManuscript yields the empty string when the manuscript is
missing; otherwise it renders the chapters of that manuscript as titled
blocks, in an order that is a permutation of the selected chapters sorted
ascending by createdAt; in particular, with chapters of createdAt 300, 100,
200 titled A, B, C, the compiled output lists B, then C, then A, each block
using the polished text when non-empty and the raw text otherwise. -/
theorem C5_compileManuscript (manuscriptId : String) (st : Store) :
    (st.manuscripts.find? (fun m => m.id == manuscriptId) = none →
      compileManuscript manuscriptId st = "") ∧
    (st.manuscripts.find? (fun m => m.id == manuscriptId) ≠ none →
      compileManuscript manuscriptId st =
        String.join ((sortByCreatedAt (getDocumentsByManuscript (some manuscriptId) st)).map
          chapterBlock)) ∧
    List.Perm (sortByCreatedAt (getDocumentsByManuscript (some manuscriptId) st))
      (getDocumentsByManuscript (some manuscriptId) st) ∧
    List.Pairwise (fun a b => a.createdAt ≤ b.createdAt)
      (sortByCreatedAt (getDocumentsByManuscript (some manuscriptId) st)) ∧
    compileManuscript "m1" exampleStore =
      "--- B ---\n\nrawB\n\n--- C ---\n\npolC\n\n--- A ---\n\npolA\n\n" := by
  refine ⟨?_, ?_, sortByCreatedAt_perm _, sortByCreatedAt_sorted _, by decide⟩
  · intro h
    rw [compileManuscript, h]
  · intro h
    cases hf : st.manuscripts.find? (fun m => m.id == manuscriptId) with
    | none => exact absurd hf h
    | some m => rw [compileManuscript, hf]

/-- C5 witness: compiling a manuscript id that resolves to no manuscript
yields the empty string. -/
theorem C5_witness : compileManuscript "missing" emptyStore = "" :=
  (C5_compileManuscript "missing" emptyStore).1 rfl

/-- C6: restoreBackup on a blob that fails to parse, or that lacks a
manuscripts or documents sequence, reports failure and leaves every storage
entry unchanged. -/
theorem C6_restoreBackup (input : Option BackupData) (st : Store)
    (h : input = none ∨ ∃ data, input = some data ∧
      (data.manuscripts = none ∨ data.documents = none)) :
    restoreBackup input st = (false, st) := by
  rcases h with rfl | ⟨data, rfl, hbad⟩
  · rfl
  · obtain ⟨ms, ds, us, v, t⟩ := data
    rcases hbad with hm | hd
    · obtain rfl : ms = none := hm
      cases ds <;> rfl
    · obtain rfl : ds = none := hd
      cases ms <;> rfl

/-- C6 witness: restoring a parsed blob whose documents field is not a
sequence fails and leaves the demo store unchanged. -/
theorem C6_witness :
    restoreBackup (some missingDocsBackup) demoStore = (false, demoStore) :=
  C6_restoreBackup (some missingDocsBackup) demoStore
    (Or.inr ⟨missingDocsBackup, rfl, Or.inr rfl⟩)

/-- C7: restoring a backup created from the current store reports success and
returns the store to exactly the state it had before. -/
theorem C7_backup_restore_roundtrip (now : Nat) (st : Store) :
    restoreBackup (some (createBackup now st)) st = (true, st) := by
  obtain ⟨ms, ds, us⟩ := st
  cases us <;> rfl

/-- C4, counterexample: on a no-speech error event the claim says no state
changes beyond remaining in the listening state, but the handler sets
isListening to false. -/
theorem C4_counterexample :
    listeningState.isListening = true ∧
    (onError listeningState "no-speech").isListening = false :=
  ⟨rfl, by decide⟩

/-- C4 (amended): the codes not-allowed and service-not-allowed produce the
permission error, any other code except no-speech produces the generic
service error carrying the code, and no-speech is suppressed: no error is
surfaced and the text buffers and session are unchanged, but isListening is
set to false (the handler leaves the listening state on every error
event). -/
theorem C4_onError_taxonomy (s : SpeechState) (code : String) :
    ((code = "not-allowed" ∨ code = "service-not-allowed") →
      (onError s code).error = some permissionDeniedMessage ∧
      (onError s code).isListening = false) ∧
    ((code ≠ "not-allowed" ∧ code ≠ "service-not-allowed" ∧ code ≠ "no-speech") →
      (onError s code).error = some ("Error occurred: " ++ code) ∧
      (onError s code).isListening = false) ∧
    ((onError s "no-speech").error = s.error ∧
     (onError s "no-speech").confirmedText = s.confirmedText ∧
     (onError s "no-speech").interimText = s.interimText ∧
     (onError s "no-speech").hasSession = s.hasSession ∧
     (onError s "no-speech").isListening = false) := by
  refine ⟨?_, ?_, ?_⟩
  · intro h
    rw [onError, if_pos h]
    exact ⟨rfl, rfl⟩
  · rintro ⟨h1, h2, h3⟩
    rw [onError, if_neg (by tauto), if_pos h3]
    exact ⟨rfl, rfl⟩
  · rw [onError, if_neg (by decide), if_neg (by decide)]
    exact ⟨rfl, rfl, rfl, rfl, rfl⟩

/-- C4 witness: a permission code surfaces the permission message and a
generic code surfaces the generic message carrying the code. -/
theorem C4_witness :
    (onError listeningState "not-allowed").error = some permissionDeniedMessage ∧
    (onError listeningState "audio-capture").error =
      some ("Error occurred: " ++ "audio-capture") :=
  ⟨((C4_onError_taxonomy listeningState "not-allowed").1 (Or.inl rfl)).1,
   ((C4_onError_taxonomy listeningState "audio-capture").2.1
      ⟨by decide, by decide, by decide⟩).1⟩

/-- C8: when a session has been started, stopping folds the pending interim
text into the confirmed text, clears the interim text, and leaves the visible
transcript unchanged. -/
theorem C8_stopListening (s : SpeechState) (h : s.hasSession = true) :
    (stopListening s).confirmedText = s.confirmedText ++ s.interimText ∧
    (stopListening s).interimText = "" ∧
    fullTranscript (stopListening s) = fullTranscript s := by
  rw [stopListening, if_pos h]
  refine ⟨rfl, rfl, ?_⟩
  rw [fullTranscript, fullTranscript]
  exact String.append_empty _

/-- C8 witness: stopping the session with confirmed "hello " and interim
"world" commits the interim text and preserves the transcript. -/
theorem C8_witness :
    (stopListening stoppableState).confirmedText =
      stoppableState.confirmedText ++ stoppableState.interimText ∧
    (stopListening stoppableState).interimText = "" ∧
    fullTranscript (stopListening stoppableState) = fullTranscript stoppableState :=
  C8_stopListening stoppableState rfl

/-- C9, counterexample: the claim says reset clears the error channel, but on
a state carrying an error, resetTranscript leaves the error in place. -/
theorem C9_counterexample :
    (resetTranscript erroredState).error = some "boom" ∧
    (resetTranscript erroredState).error ≠ none :=
  ⟨rfl, by decide⟩

/-- C9 (amended): after reset the state satisfies confirmedText = "",
interimText = "", isListening = false, while the error channel is left
unchanged from the prior state (it is cleared by the next start, not by
reset). -/
theorem C9_resetTranscript (s : SpeechState) :
    (resetTranscript s).confirmedText = "" ∧
    (resetTranscript s).interimText = "" ∧
    (resetTranscript s).isListening = false ∧
    (resetTranscript s).error = s.error :=
  ⟨rfl, rfl, rfl, rfl⟩

/-- C10: startListening never modifies confirmedText or interimText, whether
or not the backend is available, so a new recording session appends to the
previously accumulated text; moreover onResult and stopListening only ever
append to the confirmed text, and the error and lifecycle handlers leave both
buffers untouched, so among the operations only resetTranscript and
setTranscript rewrite the confirmed buffer. -/
theorem C10_startListening_frame (available : Bool) (s : SpeechState)
    (slots : List ResultSlot) (code text : String) :
    (startListening available s).confirmedText = s.confirmedText ∧
    (startListening available s).interimText = s.interimText ∧
    fullTranscript (startListening available s) = fullTranscript s ∧
    (∃ t, (onResult s slots).confirmedText = s.confirmedText ++ t) ∧
    (∃ t, (stopListening s).confirmedText = s.confirmedText ++ t) ∧
    (onError s code).confirmedText = s.confirmedText ∧
    (onError s code).interimText = s.interimText ∧
    (onStart s).confirmedText = s.confirmedText ∧
    (onEnd s).confirmedText = s.confirmedText ∧
    (resetTranscript s).confirmedText = "" ∧
    (setTranscript s text).confirmedText = text := by
  refine ⟨?_, ?_, ?_, ⟨finalsText slots, onResult_confirmed s slots⟩, ?_, ?_, ?_,
    rfl, rfl, rfl, rfl⟩
  · cases available <;> rfl
  · cases available <;> rfl
  · cases available <;> rfl
  · rw [stopListening]
    split
    · exact ⟨s.interimText, rfl⟩
    · exact ⟨"", (String.append_empty _).symm⟩
  · rw [onError]
    split
    · rfl
    · split <;> rfl
  · rw [onError]
    split
    · rfl
    · split <;> rfl

end AuthorsVoice
